import Mathlib

/-!
Verification development for the sqlworkshop repository (`src/app.py`).

Strings are embedded as `List Char` (ASCII fragment: `Char.toUpper` models
Python `str.upper`, and the word-character / whitespace classes are the ASCII
cases of Python's regex classes, which coincide on all inputs considered here).
Python functions of `app.py` are translated into executable Lean functions of
the same names; the database and the HTTP layer are modelled by passing the
database's outcome for the one statement an operation runs as an explicit
argument, and by recording in the result which side effects (classifier call,
connection open, connection close) the code path performs.
-/

namespace SqlWorkshop

/-- Python `str.strip` whitespace class (ASCII): space, tab, newline,
carriage return, vertical tab, form feed. -/
def pyIsSpace (c : Char) : Bool :=
  c = ' ' || c = '\t' || c = '\n' || c = '\r' || c = '\x0b' || c = '\x0c'

/-- Python `str.strip`: drop leading and trailing whitespace. -/
def pyStrip (s : List Char) : List Char :=
  ((s.dropWhile pyIsSpace).reverse.dropWhile pyIsSpace).reverse

/-- Regex word character (`\w`, ASCII case): letters, digits, underscore. -/
def isWordChar (c : Char) : Bool :=
  c.isAlphanum || c = '_'

/-- State machine for `re.sub(r"--.*", "", s)` (line-comment removal, `.` does
not cross newlines): in state `true` we are inside a line comment and drop
characters until a newline, which is kept (the regex match stops before it). -/
def removeLineCommentsAux : Bool → List Char → List Char
  | _, [] => []
  | true, c :: rest =>
    if c = '\n' then c :: removeLineCommentsAux false rest
    else removeLineCommentsAux true rest
  | false, '-' :: '-' :: rest => removeLineCommentsAux true rest
  | false, c :: rest => c :: removeLineCommentsAux false rest

/-- Line 52 of `app.py`: `query_upper = re.sub(r"--.*", "", query_upper)`. -/
def removeLineComments (s : List Char) : List Char :=
  removeLineCommentsAux false s

/-- Scan for the first `*/` and return the suffix after it (the lazy `.*?`
of the block-comment regex stops at the first closing marker); `none` when no
closing marker exists, in which case the regex does not match at all. -/
def dropToClose : List Char → Option (List Char)
  | '*' :: '/' :: rest => some rest
  | _ :: rest => dropToClose rest
  | [] => none

/-- Fuel-indexed body of block-comment removal. Each step consumes at least one
character of the list, so fuel equal to the initial length is never exhausted
and the fuel-out branch (which returns the remainder unchanged) is unreachable;
it exists only to make the recursion structural. -/
def removeBlockCommentsAux : Nat → List Char → List Char
  | 0, l => l
  | fuel + 1, '/' :: '*' :: rest =>
    match dropToClose rest with
    | some rest2 => removeBlockCommentsAux fuel rest2
    | none => '/' :: '*' :: rest
  | fuel + 1, c :: rest => c :: removeBlockCommentsAux fuel rest
  | _ + 1, [] => []

/-- Line 53 of `app.py`:
`query_upper = re.sub(r"/\*.*?\*/", "", query_upper, flags=re.DOTALL)`. -/
def removeBlockComments (s : List Char) : List Char :=
  removeBlockCommentsAux s.length s

/-- Does the keyword `k` match at the head of `s`, followed by a word boundary
(end of string or a non-word character)? Keywords are all-letter tokens, so the
trailing `\b` of `re.search(r"\b" + keyword + r"\b", s)` is exactly this. -/
def matchesWord : List Char → List Char → Bool
  | s, [] =>
    match s with
    | [] => true
    | c :: _ => !isWordChar c
  | [], _ :: _ => false
  | c :: s2, d :: k2 => c = d && matchesWord s2 k2

/-- Scan `s` for a word-boundary occurrence of `k`; `prevIsWord` records
whether the character before the current position is a word character (the
leading `\b` of the keyword regex: keywords start with a letter, so the
boundary holds exactly when the previous character is not a word character). -/
def containsWordFrom (prevIsWord : Bool) (k : List Char) : List Char → Bool
  | [] => false
  | c :: rest =>
    (!prevIsWord && matchesWord (c :: rest) k) || containsWordFrom (isWordChar c) k rest

/-- `re.search(r"\b" + k + r"\b", s) is not None` for an all-letter keyword
`k`: some position of `s` carries `k` as a standalone word-boundary token. -/
def containsWord (s k : List Char) : Bool :=
  containsWordFrom false k s

/-- Lines 56-60 of `app.py`: the fixed forbidden-keyword list, in source
order. -/
def dangerous_keywords : List (List Char) :=
  ["INSERT".toList, "UPDATE".toList, "DELETE".toList, "DROP".toList,
   "ALTER".toList, "CREATE".toList, "TRUNCATE".toList, "REPLACE".toList,
   "PRAGMA".toList, "ATTACH".toList, "DETACH".toList, "VACUUM".toList,
   "GRANT".toList, "REVOKE".toList]

/-- Lines 49-53 of `app.py`: `query.strip().upper()` followed by line- and
block-comment removal, producing the working copy scanned for keywords. -/
def preprocess (q : List Char) : List Char :=
  removeBlockComments (removeLineComments ((pyStrip q).map Char.toUpper))

/-- Reason string of line 64 of `app.py`:
`f"Query contains forbidden keyword: "` followed by the keyword. -/
def forbiddenMsg (k : List Char) : List Char :=
  "Query contains forbidden keyword: ".toList ++ k

/-- Rejection message of line 68 of `app.py`. -/
def onlySelectMsg : List Char :=
  "Only SELECT queries (including CTEs with WITH, UNION, JOINs) are allowed".toList

/-- Acceptance message of line 70 of `app.py`. -/
def safeMsg : List Char :=
  "Query is safe".toList

/-- Line 67 of `app.py`: `re.match(r"^\s*(SELECT|WITH)\b", query_upper)`. -/
def startsWithReadKeyword (s : List Char) : Bool :=
  let t := s.dropWhile pyIsSpace
  matchesWord t "SELECT".toList || matchesWord t "WITH".toList

/-- Lines 43-70 of `app.py`: `is_query_safe(query)`, returning the pair
`(is_safe, message)`. The keyword loop of lines 62-64 returns on the first
keyword of the list found in the preprocessed text, which is `List.find?`. -/
def is_query_safe (query : List Char) : Bool × List Char :=
  match dangerous_keywords.find? (fun k => containsWord (preprocess query) k) with
  | some k => (false, forbiddenMsg k)
  | none =>
    if startsWithReadKeyword (preprocess query) then (true, safeMsg)
    else (false, onlySelectMsg)

example : (is_query_safe "SELECT updated_at FROM logs".toList).1 = true := by decide
example : (is_query_safe "-- ok\nDROP TABLE users;".toList) =
    (false, forbiddenMsg "DROP".toList) := by decide
example : (is_query_safe "EXPLAIN SELECT 1".toList) = (false, onlySelectMsg) := by decide
example : (is_query_safe "SELECT 1 /* UPDATE t */ -- DELETE\n".toList).1 = true := by decide
example : (is_query_safe "/* hide */ drop table x".toList) =
    (false, forbiddenMsg "DROP".toList) := by decide
example : (is_query_safe "WITH t AS (SELECT 1 AS n) SELECT n FROM t".toList).1 = true := by
  decide
example : (is_query_safe "".toList) = (false, onlySelectMsg) := by decide

/-! ### Connections (lines 23-31 of `app.py`)

`get_db_connection` is the only way the program obtains a database
connection. It checks `DATABASE_URL` and then calls `psycopg2.connect`
unconditionally: it consults no pool, no capacity limit and no live-connection
count. The model passes the environment (`DATABASE_URL` set or not, whether
`psycopg2.connect` succeeds) and the number of currently live connections
explicitly, and returns the outcome together with the new live count. -/

/-- Outcome of an acquire attempt. The code of `get_db_connection` produces
only `connection` and `connectionError`; `poolExhausted` is the outcome the
specification's pool contract describes for an acquire at capacity, included
in the type so that its absence can be stated. -/
inductive AcquireOutcome where
  | connection
  | poolExhausted
  | connectionError (msg : List Char)
  deriving DecidableEq, Repr

/-- Lines 23-31 of `app.py`: raise `ValueError` if `DATABASE_URL` is unset,
otherwise `psycopg2.connect(DATABASE_URL)` — a brand-new live connection on
success (`connectFailure = none`), the propagated connection error otherwise.
`live` is the number of connections currently held by in-flight requests;
the function never reads it. -/
def get_db_connection (databaseUrlSet : Bool) (connectFailure : Option (List Char))
    (live : Nat) : AcquireOutcome × Nat :=
  if !databaseUrlSet then
    (.connectionError "DATABASE_URL must be set in .env file".toList, live)
  else
    match connectFailure with
    | some m => (.connectionError m, live)
    | none => (.connection, live + 1)

/-- Live count after `n` concurrent requests have each executed line 135
(`conn = get_db_connection()`) successfully and none has yet reached the
`finally` block: each acquire adds one live connection. -/
def acquireRun : Nat → Nat → Nat
  | 0, live => live
  | n + 1, live => acquireRun n (get_db_connection true none live).2

/-! ### Query execution (lines 118-160 of `app.py`) -/

/-- A database value as seen through `RealDictCursor`: Python `None` is
`Option.none` around this type; the constructors carry representative
non-null Python values with their `str()` images. -/
inductive DBVal where
  | intV (n : Int)
  | textV (s : List Char)
  | boolV (b : Bool)
  deriving DecidableEq, Repr

/-- Python `str()` on a non-null value. -/
def pyStr : DBVal → List Char
  | .intV n => (toString n).toList
  | .textV s => s
  | .boolV b => if b then "True".toList else "False".toList

/-- One fetched row: an association list (ordered, as a Python dict) from
column name to nullable value. -/
abbrev Row := List (List Char × Option DBVal)

/-- Outcome of the database interaction of one `/execute_query` request:
`get_db_connection` raises, `cursor.execute`/`fetchall` raises with an error
whose `str()` is `msg`, or the statement succeeds with `rows`. -/
inductive DBOutcome where
  | connFail (msg : List Char)
  | queryFail (msg : List Char)
  | queryOk (rows : List Row)
  deriving DecidableEq, Repr

/-- HTTP response of a handler: the success JSON of lines 150-154, or an
error JSON with its status code. -/
inductive HttpResp where
  | ok (columns : List (List Char)) (rows : List (List (List Char × Option (List Char))))
      (count : Nat)
  | err (msg : List Char) (code : Nat)
  deriving DecidableEq, Repr

/-- Result of one `/execute_query` request together with the side effects its
code path performed: whether `is_query_safe` was called, whether a connection
was opened (line 135 returned), and whether it was closed (the `finally`
block of lines 158-160 ran `conn.close()` on a non-None `conn`). -/
structure ExecTrace where
  resp : HttpResp
  classifierInvoked : Bool
  connOpened : Bool
  connClosed : Bool
  deriving DecidableEq, Repr

/-- Error message of line 127 of `app.py`. -/
def noQueryMsg : List Char := "No query provided".toList

/-- Prefix of the catch-all error of lines 156-157: `f"Error: ..."`. -/
def errorPre : List Char := "Error: ".toList

/-- Line 141 of `app.py`: `list(rows[0].keys()) if rows else []`. -/
def columnsOf (rows : List Row) : List (List Char) :=
  match rows with
  | [] => []
  | r :: _ => r.map Prod.fst

/-- Line 146 of `app.py`: a row dict is rebuilt with
`str(v) if v is not None else None` in place of each value. -/
def serializeRow (row : Row) : List (List Char × Option (List Char)) :=
  row.map (fun kv => (kv.1, kv.2.map pyStr))

/-- Lines 118-160 of `app.py`: the `/execute_query` handler. `query` is the
string under the `"query"` JSON key (`data.get("query", "")`); `db` is the
database's behaviour for this request. Control flow as in the source: strip
and reject empty with 400; classify and reject unsafe with 403; connect;
execute and fetch; on an exception reply 500 via the `except` block; the
`finally` block closes the connection whenever one was opened. -/
def execute_query (query : List Char) (db : DBOutcome) : ExecTrace :=
  if (pyStrip query).isEmpty then
    ⟨.err noQueryMsg 400, false, false, false⟩
  else if (is_query_safe (pyStrip query)).1 then
    match db with
    | .connFail m => ⟨.err (errorPre ++ m) 500, true, false, false⟩
    | .queryFail m => ⟨.err (errorPre ++ m) 500, true, true, true⟩
    | .queryOk rows =>
      ⟨.ok (columnsOf rows) (rows.map serializeRow) (rows.map serializeRow).length,
       true, true, true⟩
  else
    ⟨.err (is_query_safe (pyStrip query)).2 403, true, false, false⟩

/-! ### Schema lookup (lines 187-235 of `app.py`) -/

/-- One row of the `information_schema.columns` query of lines 195-205. -/
structure ColRow where
  column_name : List Char
  data_type : List Char
  is_nullable : List Char
  column_default : Option (List Char)
  deriving DecidableEq, Repr

/-- One entry of the schema array built at lines 220-227. -/
structure SchemaCol where
  column : List Char
  type : List Char
  nullable : Bool
  primary_key : Bool
  deriving DecidableEq, Repr

/-- Outcome of the database interaction of one `/table_schema` request:
connection failure, failure of the columns query, failure of the
primary-key query (after the columns query succeeded with `cols`), or
success of both. `pks` is the `attname` column of the pg_index lookup of
lines 210-218. -/
inductive SchemaOutcome where
  | connFail (msg : List Char)
  | colsFail (msg : List Char)
  | pkFail (cols : List ColRow) (msg : List Char)
  | ok (cols : List ColRow) (pks : List (List Char))
  deriving DecidableEq, Repr

/-- Response of the `/table_schema` handler. -/
inductive SchemaResp where
  | ok (table : List Char) (schema : List SchemaCol)
  | err (msg : List Char) (code : Nat)
  deriving DecidableEq, Repr

/-- Result of one `/table_schema` request with its connection side effects. -/
structure SchemaTrace where
  resp : SchemaResp
  connOpened : Bool
  connClosed : Bool
  deriving DecidableEq, Repr

/-- Lines 220-227 of `app.py`: each column row becomes a schema entry;
`nullable` is `row["is_nullable"] == "YES"` and `primary_key` is
`row["column_name"] in primary_keys`. -/
def schemaOf (cols : List ColRow) (pks : List (List Char)) : List SchemaCol :=
  cols.map (fun r =>
    ⟨r.column_name, r.data_type, r.is_nullable = "YES".toList,
     decide (r.column_name ∈ pks)⟩)

/-- Lines 187-235 of `app.py`: the `/table_schema/<table_name>` handler.
Any exception is answered with 500 by the `except` block; the `finally`
block closes the connection whenever one was opened. -/
def table_schema (table_name : List Char) (db : SchemaOutcome) : SchemaTrace :=
  match db with
  | .connFail m => ⟨.err (errorPre ++ m) 500, false, false⟩
  | .colsFail m => ⟨.err (errorPre ++ m) 500, true, true⟩
  | .pkFail _ m => ⟨.err (errorPre ++ m) 500, true, true⟩
  | .ok cols pks => ⟨.ok table_name (schemaOf cols pks), true, true⟩

example :
    execute_query "".toList (.queryOk []) =
      ⟨.err noQueryMsg 400, false, false, false⟩ := by decide
example :
    execute_query "SELECT 1 AS x".toList (.queryOk [[("x".toList, some (.intV 1))]]) =
      ⟨.ok ["x".toList] [[("x".toList, some "1".toList)]] 1, true, true, true⟩ := by decide
example :
    execute_query "DROP TABLE t".toList (.queryOk []) =
      ⟨.err (forbiddenMsg "DROP".toList) 403, true, false, false⟩ := by decide

/-! ### Helper lemmas -/

/-- If every character of `q` is whitespace, stripping leaves nothing. -/
theorem pyStrip_eq_nil_of_all_space (q : List Char) (h : ∀ c ∈ q, pyIsSpace c = true) :
    pyStrip q = [] := by
  unfold pyStrip
  have h1 : q.dropWhile pyIsSpace = [] := List.dropWhile_eq_nil_iff.mpr h
  rw [h1]
  rfl

/-- Preprocessing a query that strips to nothing yields the empty text. -/
theorem preprocess_eq_nil_of_strip_nil (q : List Char) (h : pyStrip q = []) :
    preprocess q = [] := by
  unfold preprocess
  rw [h]
  rfl

/-- In an association list with pairwise distinct keys, a key determines its
value. -/
theorem assoc_nodup_value_unique {α β : Type} (l : List (α × β)) (k : α) (a b : β)
    (h : (l.map Prod.fst).Nodup) (ha : (k, a) ∈ l) (hb : (k, b) ∈ l) : a = b := by
  induction l with
  | nil => cases ha
  | cons hd tl ih =>
    rw [List.map_cons, List.nodup_cons] at h
    rcases List.mem_cons.mp ha with ha1 | ha2
    · rcases List.mem_cons.mp hb with hb1 | hb2
      · have hab : (k, a) = (k, b) := ha1.trans hb1.symm
        injection hab with h1 h2
      · exfalso
        apply h.1
        have hmem : (k, b).1 ∈ List.map Prod.fst tl := List.mem_map.mpr ⟨(k, b), hb2, rfl⟩
        rw [← ha1]
        exact hmem
    · rcases List.mem_cons.mp hb with hb1 | hb2
      · exfalso
        apply h.1
        have hmem : (k, a).1 ∈ List.map Prod.fst tl := List.mem_map.mpr ⟨(k, a), ha2, rfl⟩
        rw [← hb1]
        exact hmem
      · exact ih h.2 ha2 hb2

/-- Live count after a run of successful acquisitions: one new connection
per acquire, unconditionally. -/
theorem acquireRun_eq (n live : Nat) : acquireRun n live = live + n := by
  induction n generalizing live with
  | zero => rfl
  | succ m ih =>
    show acquireRun m (get_db_connection true none live).2 = live + (m + 1)
    rw [show (get_db_connection true none live).2 = live + 1 from rfl, ih]
    omega

/-! ### Claim theorems -/

/-- C1: any SQL text whose comment-stripped, uppercased working copy contains
one of the fixed forbidden keywords as a standalone word-boundary token is
classified unsafe, with a reason string naming a forbidden keyword that does
occur in the text; when the occurring keyword is unique, the reason names
exactly that keyword. Case-insensitivity and comment tolerance are inherent:
`preprocess` uppercases and strips comments exactly as lines 49-53 do. -/
theorem classifier_rejects_forbidden_keyword
    (q k : List Char) (hk : k ∈ dangerous_keywords)
    (hc : containsWord (preprocess q) k = true) :
    (is_query_safe q).1 = false ∧
    (∃ k2, k2 ∈ dangerous_keywords ∧ containsWord (preprocess q) k2 = true ∧
      (is_query_safe q).2 = forbiddenMsg k2) ∧
    ((∀ k3, k3 ∈ dangerous_keywords → containsWord (preprocess q) k3 = true → k3 = k) →
      (is_query_safe q).2 = forbiddenMsg k) := by
  have hsome : (dangerous_keywords.find? (fun kk => containsWord (preprocess q) kk)).isSome := by
    rw [List.find?_isSome]
    exact ⟨k, hk, hc⟩
  obtain ⟨k0, hfind⟩ := Option.isSome_iff_exists.mp hsome
  have hmem := List.mem_of_find?_eq_some hfind
  have hpred : containsWord (preprocess q) k0 = true := List.find?_some hfind
  unfold is_query_safe
  rw [hfind]
  refine ⟨rfl, ⟨k0, hmem, hpred, rfl⟩, fun huniq => ?_⟩
  rw [huniq k0 hmem hpred]

/-- Witness for C1, on the spec's own example with the keyword lowercased to
exercise case-insensitivity. -/
theorem classifier_rejects_forbidden_keyword_witness :
    ("DROP".toList ∈ dangerous_keywords ∧
      containsWord (preprocess "-- ok\ndrop TABLE users;".toList) "DROP".toList = true) ∧
    ((is_query_safe "-- ok\ndrop TABLE users;".toList).1 = false ∧
      (∃ k2, k2 ∈ dangerous_keywords ∧
        containsWord (preprocess "-- ok\ndrop TABLE users;".toList) k2 = true ∧
        (is_query_safe "-- ok\ndrop TABLE users;".toList).2 = forbiddenMsg k2) ∧
      ((∀ k3, k3 ∈ dangerous_keywords →
          containsWord (preprocess "-- ok\ndrop TABLE users;".toList) k3 = true →
          k3 = "DROP".toList) →
        (is_query_safe "-- ok\ndrop TABLE users;".toList).2 =
          forbiddenMsg "DROP".toList)) :=
  ⟨⟨by decide, by decide⟩,
    classifier_rejects_forbidden_keyword ("-- ok\ndrop TABLE users;".toList) ("DROP".toList)
      (by decide) (by decide)⟩

/-- C2: if no forbidden keyword survives comment removal as a standalone
word-boundary token (it occurs only inside comments or as a proper substring
of a longer identifier) and the remaining text starts with SELECT or WITH,
the classifier returns Safe: comments are removed before the keyword scan and
keywords are matched on word boundaries only. -/
theorem classifier_safe_when_keyword_hidden
    (q : List Char)
    (hno : ∀ k ∈ dangerous_keywords, containsWord (preprocess q) k = false)
    (hstart : startsWithReadKeyword (preprocess q) = true) :
    is_query_safe q = (true, safeMsg) := by
  have hnone : dangerous_keywords.find? (fun k => containsWord (preprocess q) k) = none := by
    rw [List.find?_eq_none]
    intro x hx
    simp [hno x hx]
  unfold is_query_safe
  rw [hnone]
  simp [hstart]

/-- Witness for C2: UPDATE occurs only inside `updated_at`, DROP only inside
a block comment, DELETE only inside a line comment, and the query is Safe. -/
theorem classifier_safe_when_keyword_hidden_witness :
    ((∀ k ∈ dangerous_keywords,
        containsWord
          (preprocess "SELECT updated_at FROM logs /* DROP TABLE x */ -- DELETE".toList)
          k = false) ∧
      startsWithReadKeyword
        (preprocess "SELECT updated_at FROM logs /* DROP TABLE x */ -- DELETE".toList) =
        true) ∧
    is_query_safe "SELECT updated_at FROM logs /* DROP TABLE x */ -- DELETE".toList =
      (true, safeMsg) :=
  ⟨⟨by decide, by decide⟩,
    classifier_safe_when_keyword_hidden
      ("SELECT updated_at FROM logs /* DROP TABLE x */ -- DELETE".toList)
      (by decide) (by decide)⟩

/-- C10: a query that is entirely whitespace (in particular the empty string)
is classified not-safe by `is_query_safe` itself, through the SELECT/WITH
prefix rule: its preprocessed text is empty, matches no forbidden keyword,
and fails the prefix regex. -/
theorem whitespace_query_never_safe
    (q : List Char) (h : ∀ c ∈ q, pyIsSpace c = true) :
    is_query_safe q = (false, onlySelectMsg) := by
  have h2 : preprocess q = [] :=
    preprocess_eq_nil_of_strip_nil q (pyStrip_eq_nil_of_all_space q h)
  unfold is_query_safe
  simp only [h2]
  decide

/-- Witness for C10, on a whitespace-only query. -/
theorem whitespace_query_never_safe_witness :
    (∀ c ∈ "  \n ".toList, pyIsSpace c = true) ∧
    is_query_safe "  \n ".toList = (false, onlySelectMsg) :=
  ⟨by decide, whitespace_query_never_safe ("  \n ".toList) (by decide)⟩

/-- C3 counterexample: the program has no connection pool. With 30
connections already live (the spec sizes the bound "on the order of tens"),
an acquire does not fail with PoolExhausted: `get_db_connection` opens a 31st
connection, and 31 concurrent successful acquisitions leave 31 connections
live — the claimed fixed upper bound does not exist in the code. -/
theorem no_pool_no_capacity_counterexample :
    get_db_connection true none 30 = (AcquireOutcome.connection, 31) ∧
    (get_db_connection true none 30).1 ≠ AcquireOutcome.poolExhausted ∧
    acquireRun 31 0 = 31 := by decide

/-- C3 amended: every call to `get_db_connection` with `DATABASE_URL` set and
a working server opens a brand-new connection regardless of how many are
already live, never returning PoolExhausted, so `n` concurrent in-flight
requests hold `n` live connections with no fixed upper bound. -/
theorem connections_unbounded (live n : Nat) :
    (get_db_connection true none live).1 = AcquireOutcome.connection ∧
    (get_db_connection true none live).2 = live + 1 ∧
    (get_db_connection true none live).1 ≠ AcquireOutcome.poolExhausted ∧
    acquireRun n 0 = n := by
  refine ⟨rfl, rfl, ?_, ?_⟩
  · intro hcontra
    cases hcontra
  · rw [acquireRun_eq]
    omega

/-- C4: on every exit path of the query-execution and schema-lookup handlers
— empty input, classifier rejection, connection failure, statement failure,
success — the connection is closed at exit exactly when one was opened: the
`finally` blocks of lines 158-160 and 233-235 leave no path holding a
connection when the caller receives the response. -/
theorem connection_closed_on_every_path
    (query : List Char) (db : DBOutcome) (t : List Char) (sdb : SchemaOutcome) :
    (execute_query query db).connClosed = (execute_query query db).connOpened ∧
    (table_schema t sdb).connClosed = (table_schema t sdb).connOpened := by
  constructor
  · unfold execute_query
    split
    · rfl
    · split
      · cases db <;> rfl
      · rfl
  · cases sdb <;> rfl

/-- C5 counterexample: on `"EXPLAIN SELECT 1"` (no forbidden keyword, no
SELECT/WITH prefix) the handler answers 403 with the message of line 68,
which is not the string "only read queries are allowed" the claim states. -/
theorem reject_message_differs :
    execute_query "EXPLAIN SELECT 1".toList (.queryOk []) =
      ⟨.err onlySelectMsg 403, true, false, false⟩ ∧
    onlySelectMsg ≠ "only read queries are allowed".toList := by decide

/-- C5 amended: a nonempty query containing no forbidden keyword and not
beginning with SELECT or WITH after whitespace/comment stripping is rejected
by the classifier, and the handler surfaces status 403 with the message
"Only SELECT queries (including CTEs with WITH, UNION, JOINs) are allowed",
opening no connection. -/
theorem non_read_query_rejected (q : List Char) (db : DBOutcome)
    (hne : (pyStrip q).isEmpty = false)
    (hno : ∀ k ∈ dangerous_keywords, containsWord (preprocess (pyStrip q)) k = false)
    (hstart : startsWithReadKeyword (preprocess (pyStrip q)) = false) :
    is_query_safe (pyStrip q) = (false, onlySelectMsg) ∧
    execute_query q db = ⟨.err onlySelectMsg 403, true, false, false⟩ := by
  have hnone : dangerous_keywords.find?
      (fun k => containsWord (preprocess (pyStrip q)) k) = none := by
    rw [List.find?_eq_none]
    intro x hx
    simp [hno x hx]
  have hcls : is_query_safe (pyStrip q) = (false, onlySelectMsg) := by
    unfold is_query_safe
    rw [hnone]
    simp [hstart]
  refine ⟨hcls, ?_⟩
  unfold execute_query
  rw [hne, hcls]
  rfl

/-- Witness for C5 amended, on the spec's example `"EXPLAIN SELECT 1"`. -/
theorem non_read_query_rejected_witness :
    ((pyStrip "EXPLAIN SELECT 1".toList).isEmpty = false ∧
      (∀ k ∈ dangerous_keywords,
        containsWord (preprocess (pyStrip "EXPLAIN SELECT 1".toList)) k = false) ∧
      startsWithReadKeyword (preprocess (pyStrip "EXPLAIN SELECT 1".toList)) = false) ∧
    (is_query_safe (pyStrip "EXPLAIN SELECT 1".toList) = (false, onlySelectMsg) ∧
      execute_query "EXPLAIN SELECT 1".toList (.queryOk []) =
        ⟨.err onlySelectMsg 403, true, false, false⟩) :=
  ⟨⟨by decide, by decide, by decide⟩,
    non_read_query_rejected ("EXPLAIN SELECT 1".toList) (.queryOk [])
      (by decide) (by decide) (by decide)⟩

/-- C6 counterexample: the empty query is rejected with status 400 and the
message of line 127, `"No query provided"`, which differs (in case) from the
string "no query provided" the claim states. -/
theorem empty_query_message_differs :
    execute_query "".toList (.queryOk []) =
      ⟨.err noQueryMsg 400, false, false, false⟩ ∧
    noQueryMsg ≠ "no query provided".toList := by decide

/-- C6 amended: a query that is empty after stripping is rejected immediately
with status 400 and the message "No query provided" (capital N), before the
classifier is invoked and without opening any database connection. -/
theorem empty_query_rejected_early (q : List Char) (db : DBOutcome)
    (h : (pyStrip q).isEmpty = true) :
    execute_query q db = ⟨.err noQueryMsg 400, false, false, false⟩ := by
  unfold execute_query
  rw [h]
  rfl

/-- Witness for C6 amended, on a whitespace-only request body. -/
theorem empty_query_rejected_early_witness :
    (pyStrip "   ".toList).isEmpty = true ∧
    execute_query "   ".toList (.queryOk [[("x".toList, some (.intV 1))]]) =
      ⟨.err noQueryMsg 400, false, false, false⟩ :=
  ⟨by decide,
    empty_query_rejected_early ("   ".toList) (.queryOk [[("x".toList, some (.intV 1))]])
      (by decide)⟩

/-- C7: in the response of a successful execution, every null cell of a
fetched row (with pairwise distinct column names, as a Python dict has) is
returned as the explicit null marker: the serialized row contains the pair
`(k, none)` and no pair `(k, some s)` for any string `s` — in particular not
`(k, some "None")` or `(k, some "null")` — while every non-null cell `(k, v)`
is returned as `(k, some (pyStr v))`, the `str()` image of its value. -/
theorem null_cells_preserved
    (query k : List Char) (rows : List Row) (row : Row)
    (hq : (pyStrip query).isEmpty = false)
    (hs : (is_query_safe (pyStrip query)).1 = true)
    (hrow : row ∈ rows)
    (hkeys : (row.map Prod.fst).Nodup) :
    ((execute_query query (.queryOk rows)).resp =
      .ok (columnsOf rows) (rows.map serializeRow) (rows.map serializeRow).length ∧
     serializeRow row ∈ rows.map serializeRow) ∧
    ((k, (none : Option DBVal)) ∈ row →
      ((k, (none : Option (List Char))) ∈ serializeRow row ∧
       ∀ s, (k, some s) ∉ serializeRow row)) ∧
    (∀ v : DBVal, (k, some v) ∈ row → (k, some (pyStr v)) ∈ serializeRow row) := by
  refine ⟨⟨?_, ?_⟩, ?_, ?_⟩
  · unfold execute_query
    rw [hq, hs]
    rfl
  · exact List.mem_map.mpr ⟨row, hrow, rfl⟩
  · intro hnull
    constructor
    · exact List.mem_map.mpr ⟨(k, none), hnull, rfl⟩
    · intro s hmem
      obtain ⟨⟨k2, v2⟩, hv2, heq⟩ := List.mem_map.mp hmem
      have hk2 : k2 = k := congrArg Prod.fst heq
      have hv2s : v2.map pyStr = some s := congrArg Prod.snd heq
      cases hval : v2 with
      | none => rw [hval] at hv2s; cases hv2s
      | some v3 =>
        rw [hval] at hv2
        rw [hk2] at hv2
        have := assoc_nodup_value_unique row k (some v3) none hkeys hv2 hnull
        cases this
  · intro v hv
    exact List.mem_map.mpr ⟨(k, some v), hv, rfl⟩

/-- Witness for C7, on a row with one null and one non-null cell. -/
theorem null_cells_preserved_witness :
    ((pyStrip "SELECT 1".toList).isEmpty = false ∧
      (is_query_safe (pyStrip "SELECT 1".toList)).1 = true ∧
      [("x".toList, some (DBVal.intV 1)), ("y".toList, (none : Option DBVal))] ∈
        [[("x".toList, some (DBVal.intV 1)), ("y".toList, (none : Option DBVal))]] ∧
      (([("x".toList, some (DBVal.intV 1)),
         ("y".toList, (none : Option DBVal))].map Prod.fst)).Nodup) ∧
    (((execute_query "SELECT 1".toList
        (.queryOk [[("x".toList, some (DBVal.intV 1)),
                    ("y".toList, (none : Option DBVal))]])).resp =
      .ok (columnsOf [[("x".toList, some (DBVal.intV 1)),
                       ("y".toList, (none : Option DBVal))]])
        ([[("x".toList, some (DBVal.intV 1)),
           ("y".toList, (none : Option DBVal))]].map serializeRow)
        ([[("x".toList, some (DBVal.intV 1)),
           ("y".toList, (none : Option DBVal))]].map serializeRow).length ∧
      serializeRow [("x".toList, some (DBVal.intV 1)), ("y".toList, (none : Option DBVal))] ∈
        [[("x".toList, some (DBVal.intV 1)),
          ("y".toList, (none : Option DBVal))]].map serializeRow) ∧
    (("y".toList, (none : Option DBVal)) ∈
        [("x".toList, some (DBVal.intV 1)), ("y".toList, (none : Option DBVal))] →
      (("y".toList, (none : Option (List Char))) ∈
        serializeRow [("x".toList, some (DBVal.intV 1)),
                      ("y".toList, (none : Option DBVal))] ∧
       ∀ s, ("y".toList, some s) ∉
        serializeRow [("x".toList, some (DBVal.intV 1)),
                      ("y".toList, (none : Option DBVal))])) ∧
    (∀ v : DBVal,
      ("y".toList, some v) ∈
        [("x".toList, some (DBVal.intV 1)), ("y".toList, (none : Option DBVal))] →
      ("y".toList, some (pyStr v)) ∈
        serializeRow [("x".toList, some (DBVal.intV 1)),
                      ("y".toList, (none : Option DBVal))])) :=
  ⟨⟨by decide, by decide, by decide, by decide⟩,
    null_cells_preserved ("SELECT 1".toList) ("y".toList)
      [[("x".toList, some (DBVal.intV 1)), ("y".toList, (none : Option DBVal))]]
      [("x".toList, some (DBVal.intV 1)), ("y".toList, (none : Option DBVal))]
      (by decide) (by decide) (by decide) (by decide)⟩

/-- C8: an accepted query with zero rows yields the success response with
empty column list, empty row list and count 0 (status 200 via the untouched
success path), not an error; with at least one row, the column list is the
key list of the first fetched row. -/
theorem empty_result_success_and_columns (query : List Char)
    (hq : (pyStrip query).isEmpty = false)
    (hs : (is_query_safe (pyStrip query)).1 = true) :
    execute_query query (.queryOk []) = ⟨.ok [] [] 0, true, true, true⟩ ∧
    ∀ (r : Row) (rs : List Row),
      (execute_query query (.queryOk (r :: rs))).resp =
        .ok (r.map Prod.fst) ((r :: rs).map serializeRow) (rs.length + 1) := by
  constructor
  · unfold execute_query
    rw [hq, hs]
    rfl
  · intro r rs
    unfold execute_query
    rw [hq, hs]
    simp [columnsOf]

/-- Witness for C8, on `"SELECT 1 AS x"`. -/
theorem empty_result_success_and_columns_witness :
    ((pyStrip "SELECT 1 AS x".toList).isEmpty = false ∧
      (is_query_safe (pyStrip "SELECT 1 AS x".toList)).1 = true) ∧
    (execute_query "SELECT 1 AS x".toList (.queryOk []) =
        ⟨.ok [] [] 0, true, true, true⟩ ∧
      ∀ (r : Row) (rs : List Row),
        (execute_query "SELECT 1 AS x".toList (.queryOk (r :: rs))).resp =
          .ok (r.map Prod.fst) ((r :: rs).map serializeRow) (rs.length + 1)) :=
  ⟨⟨by decide, by decide⟩,
    empty_result_success_and_columns ("SELECT 1 AS x".toList) (by decide) (by decide)⟩

/-- C9: in a successful schema lookup, the returned schema is the column rows
in order, and each entry's primary_key flag is true exactly when that entry's
column name appears in the result of the separate primary-key catalog
lookup. -/
theorem primary_key_iff_in_pk_lookup
    (t : List Char) (cols : List ColRow) (pks : List (List Char))
    (s : SchemaCol) (hs : s ∈ schemaOf cols pks) :
    (table_schema t (.ok cols pks)).resp = .ok t (schemaOf cols pks) ∧
    (s.primary_key = true ↔ s.column ∈ pks) := by
  refine ⟨rfl, ?_⟩
  obtain ⟨r, _, heq⟩ := List.mem_map.mp hs
  rw [← heq]
  simp

/-- Witness for C9, on a two-column table with primary key `id`. -/
theorem primary_key_iff_in_pk_lookup_witness :
    (⟨"id".toList, "integer".toList, false, true⟩ : SchemaCol) ∈
      schemaOf
        [⟨"id".toList, "integer".toList, "NO".toList, none⟩,
         ⟨"name".toList, "text".toList, "YES".toList, none⟩]
        ["id".toList] ∧
    ((table_schema "users".toList
        (.ok
          [⟨"id".toList, "integer".toList, "NO".toList, none⟩,
           ⟨"name".toList, "text".toList, "YES".toList, none⟩]
          ["id".toList])).resp =
      .ok "users".toList
        (schemaOf
          [⟨"id".toList, "integer".toList, "NO".toList, none⟩,
           ⟨"name".toList, "text".toList, "YES".toList, none⟩]
          ["id".toList]) ∧
      ((⟨"id".toList, "integer".toList, false, true⟩ : SchemaCol).primary_key = true ↔
        (⟨"id".toList, "integer".toList, false, true⟩ : SchemaCol).column ∈
          ["id".toList])) :=
  ⟨by decide,
    primary_key_iff_in_pk_lookup ("users".toList)
      [⟨"id".toList, "integer".toList, "NO".toList, none⟩,
       ⟨"name".toList, "text".toList, "YES".toList, none⟩]
      ["id".toList]
      ⟨"id".toList, "integer".toList, false, true⟩ (by decide)⟩

end SqlWorkshop
